import Mathlib

/-!
A shallow embedding of `src/software/watchdog.py` (the watchdog application).

The program has four parts, embedded below:

* the lock-guarded global `output_frame` (the Shared Frame Slot), written by
  `video_processing` via `output_frame = frame.copy()` and read by
  `generate_image`;
* `generate_image`, the gradio callback (the Frame Query Service): under the
  lock it returns `gr.Image(value=output_frame, label="Camera")` when
  `output_frame` is not `None`, and `None` otherwise;
* `video_processing`, the capture loop: opens the camera, then loops
  `frame = camera.capture_array(); mask = background_subtract.apply(frame);
  with lock: output_frame = frame.copy()`; a `KeyboardInterrupt` is caught,
  `camera.stop()` is called, and the interrupt is re-raised; no other
  exception is caught;
* the `__main__` block (the Startup Supervisor): starts the capture thread,
  sleeps one second, and launches the gradio web service only if the thread
  is still alive, otherwise prints a failure message.

A frame's pixel buffer is modelled as a list of naturals.  NumPy buffer
aliasing matters for the copy-on-publish claims, so the slot state carries an
explicit allocation heap: `frame.copy()` allocates a fresh buffer and the
global `output_frame` holds a reference (an address) to it; buffers already
allocated are never mutated.  Since both the publish and the read happen
inside `with lock:`, the two critical sections serialize, and a history of
slot accesses is modelled as a list of atomic publish/read operations.
-/

namespace Watchdog

/-- A frame's pixel content: the byte buffer of one captured image. -/
abbrev Frame := List Nat

/-- The gradio image object built by `generate_image`:
`gr.Image(value=output_frame, label="Camera")`. -/
structure GrImage where
  value : Frame
  label : String
deriving Repr, DecidableEq

/-- `generate_image` (watchdog.py lines 34-48): under the lock, if
`output_frame` is not `None` wrap it in a gradio image labelled `"Camera"`;
otherwise the initial `image_object = None` is returned unchanged. -/
def generate_image (output_frame : Option Frame) : Option GrImage :=
  match output_frame with
  | none => none
  | some f => some { value := f, label := "Camera" }

/-- `generate_image` as a state operation on the slot: it returns the
computed image object and leaves the slot exactly as it found it (the
function only ever reads the global `output_frame`, it never assigns it). -/
def generate_image_op (output_frame : Option Frame) :
    Option GrImage × Option Frame :=
  (generate_image output_frame, output_frame)

/-- The state of the Shared Frame Slot, with buffer identity made explicit:
`heap` is the list of pixel buffers allocated so far (an address is an index
into it; `frame.copy()` allocates a fresh one), and `slot` is the address the
global `output_frame` currently refers to (`none` before the first publish).
-/
structure SlotState where
  heap : List Frame
  slot : Option Nat
deriving Repr, DecidableEq

/-- The slot at program start: `output_frame = None`, nothing allocated. -/
def SlotState.init : SlotState := { heap := [], slot := none }

/-- `with lock: output_frame = frame.copy()` (watchdog.py lines 78-80):
allocate a fresh buffer holding the raw frame's content and rebind the
global to it.  Previously allocated buffers are left untouched. -/
def publish (s : SlotState) (frame : Frame) : SlotState :=
  { heap := s.heap ++ [frame], slot := some s.heap.length }

/-- The frame content currently visible through the slot: dereference the
address held by `output_frame`, if any. -/
def readFrame (s : SlotState) : Option Frame :=
  s.slot.bind fun a => s.heap.get? a

/-- One atomic access to the Shared Frame Slot.  Both accesses in the source
sit inside `with lock:`, so a concurrent history is a serialization of
complete publishes and reads. -/
inductive SlotOp where
  | publish (f : Frame)
  | read
deriving Repr, DecidableEq

/-- Run a serialized history of slot accesses, collecting the content seen
by each read (in history order). -/
def runOps : SlotState → List SlotOp → SlotState × List (Option Frame)
  | s, [] => (s, [])
  | s, SlotOp.publish f :: rest => runOps (publish s f) rest
  | s, SlotOp.read :: rest =>
      let r := runOps s rest
      (r.1, readFrame s :: r.2)

/-! ## The capture loop (`video_processing`, watchdog.py lines 50-85)

The loop body is
`frame = camera.capture_array(); mask = background_subtract.apply(frame);
with lock: output_frame = frame.copy()`, wrapped in
`try: ... except KeyboardInterrupt: camera.stop(); raise`.

The background subtractor (`cv.createBackgroundSubtractorMOG2()`) is opaque:
it is a stateful per-frame function, modelled as an arbitrary type `BG` of
internal states together with an arbitrary
`apply : BG → Frame → BG × Frame` returning the updated state and the mask.
Each loop iteration is driven by what the external world does during it. -/

/-- What happens externally during one iteration of the capture loop:
the capture and transform both succeed, `camera.capture_array()` raises a
(non-`KeyboardInterrupt`) error, `background_subtract.apply` raises, or a
`KeyboardInterrupt` is delivered to the loop. -/
inductive IterInput where
  | ok (f : Frame)
  | captureFail
  | transformFail (f : Frame)
  | interrupt
deriving Repr, DecidableEq

/-- How the capture loop can terminate: an uncaught exception escaping the
`try` from `camera.capture_array()` or from `background_subtract.apply`, or
the re-raised `KeyboardInterrupt` from the `except` clause. -/
inductive ExitKind where
  | crashCapture
  | crashTransform
  | keyboardInterrupt
deriving Repr, DecidableEq

/-- The capture loop's state: the background subtractor's internal state,
the Shared Frame Slot, and how many times `camera.stop()` has been called. -/
structure LoopState (BG : Type) where
  bg : BG
  slot : SlotState
  stops : Nat
deriving Repr, DecidableEq

/-- One iteration of the `while (1)` body.  On a successful capture the mask
`background_subtract.apply(frame)` is computed (updating the subtractor's
state) and then never used; the raw frame is published.  An exception from
capture or transform is not `KeyboardInterrupt`, so the `except` clause does
not catch it: it escapes with the state untouched and `camera.stop()` is not
called.  A `KeyboardInterrupt` is caught, `camera.stop()` runs once, and the
interrupt is re-raised. -/
def loop_iter {BG : Type} (apply : BG → Frame → BG × Frame)
    (s : LoopState BG) : IterInput → LoopState BG ⊕ ExitKind × LoopState BG
  | IterInput.ok f =>
      let step := apply s.bg f
      Sum.inl { s with bg := step.1, slot := publish s.slot f }
  | IterInput.captureFail => Sum.inr (ExitKind.crashCapture, s)
  | IterInput.transformFail _ => Sum.inr (ExitKind.crashTransform, s)
  | IterInput.interrupt =>
      Sum.inr (ExitKind.keyboardInterrupt, { s with stops := s.stops + 1 })

/-- Run the capture loop over a finite prefix of external events.  The
result's second component is `none` while the loop is still running and
`some k` when it terminated with exit `k`; events after a termination are
never reached. -/
def video_loop {BG : Type} (apply : BG → Frame → BG × Frame) :
    LoopState BG → List IterInput → LoopState BG × Option ExitKind
  | s, [] => (s, none)
  | s, i :: rest =>
      match loop_iter apply s i with
      | Sum.inl s' => video_loop apply s' rest
      | Sum.inr (k, s') => (s', some k)

/-! ## The startup supervisor (`__main__`, watchdog.py lines 87-101) -/

/-- The externally observable actions of the `__main__` block. -/
inductive MainAction where
  | startCaptureThread
  | sleepGrace (seconds : Nat)
  | launchWebService
  | reportFailure
deriving Repr, DecidableEq

/-- The `__main__` block: start the `video_processing` thread, `sleep(1)`,
then `if video_thread.is_alive():` launch the gradio app (bound to
`0.0.0.0`), `else:` print `"Unable to do video processing!"`. -/
def watchdog_main (video_thread_alive : Bool) : List MainAction :=
  [MainAction.startCaptureThread, MainAction.sleepGrace 1] ++
    (if video_thread_alive then [MainAction.launchWebService]
     else [MainAction.reportFailure])

/-- Whether the capture thread is still alive when `is_alive()` is checked:
`video_processing` opens, configures and starts the camera before entering
its loop (watchdog.py lines 54-64); if that fails the exception terminates
the daemon thread, otherwise the `while (1)` loop keeps it alive. -/
def capture_thread_alive (camera_open_ok : Bool) : Bool := camera_open_ok

/-! ## Basic facts about the Shared Frame Slot -/

theorem readFrame_publish (s : SlotState) (f : Frame) :
    readFrame (publish s f) = some f := by
  simp [readFrame, publish, List.getElem?_concat_length]

theorem readFrame_init : readFrame SlotState.init = none := rfl

/-! ## The claims -/

/-- C1: on every successful iteration of the capture loop the vision
transform is applied to the captured frame (updating the background
subtractor's state), but the value published into the Shared Frame Slot is a
fresh copy of the raw captured frame `f`; the iteration's result is fully
determined by the transform's state component alone, so the mask — the
transform's output — is computed and then discarded. -/
theorem c1_publishes_raw_frame_not_mask {BG : Type}
    (apply : BG → Frame → BG × Frame) (s : LoopState BG) (f : Frame) :
    loop_iter apply s (IterInput.ok f) =
      Sum.inl { bg := (apply s.bg f).1, slot := publish s.slot f,
                stops := s.stops }
    ∧ readFrame (publish s.slot f) = some f := by
  exact ⟨rfl, readFrame_publish s.slot f⟩

/-- C2: the web service is launched if and only if the capture thread is
still alive after the fixed one-second grace period — in particular, when
the camera cannot be opened the thread has died, failure is reported, and
the service is never launched; the launch, when it happens, comes only
after the thread start and the grace sleep. -/
theorem c2_startup_gating (camera_open_ok : Bool) :
    ((MainAction.launchWebService ∈
        watchdog_main (capture_thread_alive camera_open_ok))
      ↔ camera_open_ok = true)
    ∧ ((MainAction.reportFailure ∈
        watchdog_main (capture_thread_alive camera_open_ok))
      ↔ camera_open_ok = false)
    ∧ (watchdog_main (capture_thread_alive camera_open_ok)).take 2 =
        [MainAction.startCaptureThread, MainAction.sleepGrace 1] := by
  cases camera_open_ok <;> exact ⟨by decide, by decide, rfl⟩

/-- C3: when the Shared Frame Slot is empty the query returns no image at
all, and in every state the returned image, if any, carries exactly the
slot's content — the query never fabricates a frame. -/
theorem c3_empty_slot_returns_not_ready :
    generate_image none = none
    ∧ ∀ s : Option Frame, Option.map GrImage.value (generate_image s) = s := by
  refine ⟨rfl, fun s => ?_⟩
  cases s <;> rfl

/-- C4: publishing `f1` and then `f2` with no intervening read leaves the
slot holding exactly `f2`'s content — a subsequent read returns `f2`
exactly, with `f1` fully replaced and never buffered or mixed in. -/
theorem c4_latest_wins (s : SlotState) (f1 f2 : Frame) :
    (runOps s [SlotOp.publish f1, SlotOp.publish f2, SlotOp.read]).2 =
      [some f2]
    ∧ readFrame (publish (publish s f1) f2) = some f2 := by
  constructor
  · simp [runOps, readFrame_publish]
  · exact readFrame_publish _ _

/-- C5: two consecutive invocations of the query with no intervening
publish return identical payloads, and neither invocation changes the
slot's content. -/
theorem c5_idempotent_query (s : Option Frame) :
    (generate_image_op (generate_image_op s).2).1 = (generate_image_op s).1
    ∧ (generate_image_op (generate_image_op s).2).2 = s :=
  ⟨rfl, rfl⟩

/-- C6 counterexample: with the slot holding the frame `[1]`, a single
capture failure terminates the capture loop — the `try` catches only
`KeyboardInterrupt`, so the loop crashes instead of skipping the iteration,
and the following (perfectly good) frame `[2]` is never captured or
published. -/
theorem c6_counterexample :
    (video_loop (fun (b : Nat) (f : Frame) => (b + 1, f))
        { bg := 0, slot := publish SlotState.init [1], stops := 0 }
        [IterInput.captureFail, IterInput.ok [2]]).2 =
      some ExitKind.crashCapture
    ∧ readFrame (video_loop (fun (b : Nat) (f : Frame) => (b + 1, f))
        { bg := 0, slot := publish SlotState.init [1], stops := 0 }
        [IterInput.captureFail, IterInput.ok [2]]).1.slot = some [1] := by
  exact ⟨rfl, rfl⟩

/-- C6 amended: a mid-run capture or transform error is not handled locally
— the exception escapes the loop (only `KeyboardInterrupt` is caught) and
the loop terminates at once, without invoking the adapter's stop and
without reaching any later iteration; the loop's state, and with it the
previously published frame, is left untouched, so that frame remains
visible to the query service. -/
theorem c6_amended_errors_crash_loop {BG : Type}
    (apply : BG → Frame → BG × Frame) (s : LoopState BG)
    (rest : List IterInput) (f : Frame) :
    video_loop apply s (IterInput.captureFail :: rest) =
      (s, some ExitKind.crashCapture)
    ∧ video_loop apply s (IterInput.transformFail f :: rest) =
      (s, some ExitKind.crashTransform) :=
  ⟨rfl, rfl⟩

/-- C7: if a `KeyboardInterrupt` arrives while the capture loop is running
(after any number of successful iterations), the loop calls `camera.stop()`
exactly once — the stop counter goes from `s.stops` to `s.stops + 1` — and
terminates with the re-raised interrupt as its exit; later events are never
processed. -/
theorem c7_interrupt_stops_camera_once {BG : Type}
    (apply : BG → Frame → BG × Frame) (s : LoopState BG)
    (pre rest : List IterInput)
    (hpre : ∀ i ∈ pre, ∃ f, i = IterInput.ok f) :
    ∃ s' : LoopState BG,
      video_loop apply s (pre ++ IterInput.interrupt :: rest) =
        (s', some ExitKind.keyboardInterrupt)
      ∧ s'.stops = s.stops + 1 := by
  induction pre generalizing s with
  | nil => exact ⟨_, rfl, rfl⟩
  | cons i pre ih =>
      obtain ⟨f, rfl⟩ := hpre i (List.mem_cons_self i pre)
      have hpre' : ∀ j ∈ pre, ∃ f, j = IterInput.ok f :=
        fun j hj => hpre j (List.mem_cons_of_mem _ hj)
      obtain ⟨s', hrun, hstops⟩ :=
        ih { s with bg := (apply s.bg f).1, slot := publish s.slot f } hpre'
      exact ⟨s', hrun, hstops⟩

/-- C7 witness: starting from a fresh loop state (no stop calls yet), one
good frame followed by an interrupt yields the interrupt exit with exactly
one `camera.stop()` call. -/
theorem c7_witness :
    ∃ s' : LoopState Nat,
      video_loop (fun b f => (b + 1, f))
        { bg := 0, slot := SlotState.init, stops := 0 }
        ([IterInput.ok [5]] ++ IterInput.interrupt :: []) =
        (s', some ExitKind.keyboardInterrupt)
      ∧ s'.stops = 0 + 1 :=
  c7_interrupt_stops_camera_once (fun b f => (b + 1, f))
    { bg := 0, slot := SlotState.init, stops := 0 }
    [IterInput.ok [5]] []
    (by intro i hi; rw [List.mem_singleton] at hi; exact ⟨[5], hi⟩)

/-- C8: a publish allocates a fresh buffer for its copy of the frame and
never mutates any buffer already in the heap — so a frame value handed to a
caller (a handle to an allocated buffer) keeps its content across every
subsequent publish, while the slot itself comes to hold the new frame's
content. -/
theorem c8_publish_never_mutates_old_buffers
    (s : SlotState) (f : Frame) (a : Nat) (c : Frame)
    (h : s.heap.get? a = some c) :
    (publish s f).heap.get? a = some c
    ∧ readFrame (publish s f) = some f := by
  refine ⟨?_, readFrame_publish s f⟩
  have ha : a < s.heap.length := by
    by_contra hlt
    rw [List.get?_eq_none.mpr (Nat.le_of_not_lt hlt)] at h
    exact Option.noConfusion h
  rw [publish]
  simp only [List.get?_eq_getElem?] at h ⊢
  rw [List.getElem?_append_left ha]
  exact h

/-- C8 witness: with one buffer `[9]` allocated and published, publishing
`[4]` leaves the old buffer intact while the slot now reads `[4]`. -/
theorem c8_witness :
    (SlotState.mk [[9]] (some 0)).heap.get? 0 = some ([9] : Frame)
    ∧ ((publish (SlotState.mk [[9]] (some 0)) [4]).heap.get? 0 = some [9]
       ∧ readFrame (publish (SlotState.mk [[9]] (some 0)) [4]) = some [4]) :=
  ⟨rfl, c8_publish_never_mutates_old_buffers (SlotState.mk [[9]] (some 0))
    [4] 0 [9] rfl⟩

theorem runOps_read_mem (ops : List SlotOp) (s : SlotState) :
    ∀ r ∈ (runOps s ops).2,
      r = none ∨ r = readFrame s
        ∨ ∃ f, r = some f ∧ SlotOp.publish f ∈ ops := by
  induction ops generalizing s with
  | nil => intro r hr; simp [runOps] at hr
  | cons op rest ih =>
      intro r hr
      cases op with
      | publish f =>
          rcases ih (publish s f) r hr with h | h | ⟨g, hg, hmem⟩
          · exact Or.inl h
          · refine Or.inr (Or.inr ⟨f, ?_, List.mem_cons_self _ _⟩)
            rw [h, readFrame_publish]
          · exact Or.inr (Or.inr ⟨g, hg, List.mem_cons_of_mem _ hmem⟩)
      | read =>
          rw [runOps] at hr
          rcases List.mem_cons.mp hr with h | h
          · exact Or.inr (Or.inl h)
          · rcases ih s r h with h' | h' | ⟨g, hg, hmem⟩
            · exact Or.inl h'
            · exact Or.inr (Or.inl h')
            · exact Or.inr (Or.inr ⟨g, hg, List.mem_cons_of_mem _ hmem⟩)

/-- C9: in any serialized history of lock-protected slot accesses starting
from the empty slot, every value a read observes is either the empty state
or exactly the content of some single complete publish occurring in the
history — never a torn or half-written frame. -/
theorem c9_no_torn_reads (ops : List SlotOp) (r : Option Frame)
    (hr : r ∈ (runOps SlotState.init ops).2) :
    r = none ∨ ∃ f, r = some f ∧ SlotOp.publish f ∈ ops := by
  rcases runOps_read_mem ops SlotState.init r hr with h | h | h
  · exact Or.inl h
  · exact Or.inl (h.trans readFrame_init)
  · exact Or.inr h

/-- C9 witness: in the history publish `[7]` then read, the read observes
`[7]`, which was indeed published in the history. -/
theorem c9_witness :
    (some [7] : Option Frame) ∈
      (runOps SlotState.init [SlotOp.publish [7], SlotOp.read]).2
    ∧ ((some [7] : Option Frame) = none
       ∨ ∃ f, (some [7] : Option Frame) = some f
           ∧ SlotOp.publish f ∈ [SlotOp.publish [7], SlotOp.read]) :=
  ⟨by decide, c9_no_torn_reads [SlotOp.publish [7], SlotOp.read]
    (some [7]) (by decide)⟩

theorem runOps_readFrame_ne_none (ops : List SlotOp) (s : SlotState)
    (h : readFrame s ≠ none) : readFrame (runOps s ops).1 ≠ none := by
  induction ops generalizing s with
  | nil => exact h
  | cons op rest ih =>
      cases op with
      | publish f =>
          exact ih (publish s f)
            (by rw [readFrame_publish]; exact Option.some_ne_none f)
      | read => exact ih s h

/-- C10: once the slot is non-empty it stays non-empty through any further
sequence of publishes and reads — a publish always stores a frame and no
operation resets the slot — so the query service can answer `NotReady`
(no image) only before the first publish, never afterwards. -/
theorem c10_never_empty_after_first_publish (s : SlotState)
    (ops : List SlotOp) (h : readFrame s ≠ none) :
    readFrame (runOps s ops).1 ≠ none
    ∧ generate_image (readFrame (runOps s ops).1) ≠ none := by
  have h1 := runOps_readFrame_ne_none ops s h
  refine ⟨h1, ?_⟩
  cases hx : readFrame (runOps s ops).1 with
  | none => exact absurd hx h1
  | some f => simp [generate_image]

/-- C10 witness: after publishing `[3]`, a read, another publish and
another read leave the slot non-empty and the query still returns an
image. -/
theorem c10_witness :
    readFrame (publish SlotState.init [3]) ≠ none
    ∧ (readFrame (runOps (publish SlotState.init [3])
          [SlotOp.read, SlotOp.publish [4], SlotOp.read]).1 ≠ none
       ∧ generate_image (readFrame (runOps (publish SlotState.init [3])
          [SlotOp.read, SlotOp.publish [4], SlotOp.read]).1) ≠ none) :=
  ⟨by decide, c10_never_empty_after_first_publish
    (publish SlotState.init [3])
    [SlotOp.read, SlotOp.publish [4], SlotOp.read] (by decide)⟩

end Watchdog
